import Mathlib

/-
Verification of the Hummock event handler
(src/storage/src/hummock/event_handler/hummock_event_handler.rs).

The handler state is embedded shallowly: Rust HashMaps become association
lists over Nat keys, epochs and handle/sender identifiers are Nat, sizes
are Nat, and each event handler becomes a pure function from handler state
to an optional (new state, list of emitted actions); a `none` result embeds
a Rust panic. Components of the repository that are referenced by the
event handler but whose code is not part of the sources here (the
LocalVersion operations, the UploadHandleManager) are modelled from the
specification; each such definition is marked in its doc comment.
-/

namespace Hummock

/-- Lookup in an association list with Nat keys, mirroring HashMap::get. -/
def alookup {α : Type} : List (Nat × α) → Nat → Option α
  | [], _ => none
  | (k, v) :: rest, key => if k = key then some v else alookup rest key

/-- Remove every binding of a key, mirroring HashMap::remove on nodup keys. -/
def aremove {α : Type} (m : List (Nat × α)) (key : Nat) : List (Nat × α) :=
  m.filter (fun p => decide (p.1 ≠ key))

/-- Insert a binding, replacing any previous binding of the key, mirroring
HashMap::insert. -/
def ainsert {α : Type} (m : List (Nat × α)) (key : Nat) (v : α) : List (Nat × α) :=
  (key, v) :: aremove m key

/-- Keys of an association list. -/
def akeys {α : Type} (m : List (Nat × α)) : List Nat :=
  m.map Prod.fst

theorem alookup_ainsert_self {α : Type} (m : List (Nat × α)) (k : Nat) (v : α) :
    alookup (ainsert m k v) k = some v := by
  simp [ainsert, alookup]

theorem alookup_aremove_self {α : Type} (m : List (Nat × α)) (k : Nat) :
    alookup (aremove m k) k = none := by
  induction m with
  | nil => rfl
  | cons p rest ih =>
    by_cases h : p.1 = k
    · simpa [aremove, h] using ih
    · simpa [aremove, alookup, h] using ih

theorem alookup_aremove_ne {α : Type} (m : List (Nat × α)) (k k' : Nat) (h : k' ≠ k) :
    alookup (aremove m k) k' = alookup m k' := by
  induction m with
  | nil => rfl
  | cons p rest ih =>
    by_cases hp : p.1 = k
    · have hne : ¬(p.1 = k') := fun hx => h (hx ▸ hp)
      rw [show aremove (p :: rest) k = aremove rest k by
        simp [aremove, List.filter, hp]]
      rw [ih]
      rw [show alookup (p :: rest) k' = alookup rest k' by
        simp [alookup, hne]]
    · rw [show aremove (p :: rest) k = p :: aremove rest k by
        simp [aremove, List.filter, hp]]
      by_cases hk : p.1 = k'
      · simp [alookup, hk]
      · simp only [alookup, hk, if_neg]
        exact ih

theorem alookup_ainsert_ne {α : Type} (m : List (Nat × α)) (k k' : Nat) (v : α)
    (h : k' ≠ k) : alookup (ainsert m k v) k' = alookup m k' := by
  have hk : ¬(k = k') := fun hx => h hx.symm
  rw [show alookup (ainsert m k v) k' = alookup (aremove m k) k' by
    simp [ainsert, alookup, hk]]
  exact alookup_aremove_ne m k k' h

/-! ## Buffer tracker (BufferTracker in hummock_event_handler.rs) -/

/-- Storage configuration fields consumed by the buffer tracker. The
field shared_buffer_capacity_mb is read by BufferTracker::from_storage_config;
shared_buffer_flush_ratio is modelled from the spec (the StorageConfig type
itself is outside the given sources): ratio used to derive flush threshold,
default 0.8. -/
structure StorageConfig where
  shared_buffer_capacity_mb : Nat
  shared_buffer_flush_ratio : ℚ

/-- BufferTracker state: the configured flush threshold, the current memory
usage reported by the global memory limiter, and the in-flight upload task
byte count. The latter two are runtime quantities read through
get_buffer_size and the global_upload_task_size atomic. -/
structure BufferTracker where
  flush_threshold : Nat
  buffer_size : Nat
  upload_task_size : Nat

/-- Embedding of BufferTracker::from_storage_config: capacity is
shared_buffer_capacity_mb shifted left by 20 bits, and the flush threshold
is capacity * 4 / 5 (integer division). The limiter starts with zero usage
and no upload tasks in flight. -/
def BufferTracker.from_storage_config (config : StorageConfig) : BufferTracker :=
  let capacity := config.shared_buffer_capacity_mb * (2 ^ 20)
  let flush_threshold := capacity * 4 / 5
  { flush_threshold := flush_threshold
    buffer_size := 0
    upload_task_size := 0 }

/-- Embedding of BufferTracker::need_more_flush: buffer size is greater than
flush threshold plus the in-flight upload task size. -/
def BufferTracker.need_more_flush (b : BufferTracker) : Bool :=
  b.buffer_size > b.flush_threshold + b.upload_task_size

/-- Specification-side flush threshold for claim C8: the configured flush
ratio multiplied by the total capacity C. -/
def specFlushThreshold (config : StorageConfig) : ℚ :=
  config.shared_buffer_flush_ratio * (config.shared_buffer_capacity_mb * (2 ^ 20) : ℚ)

/-! ## Sync records and the local version

Immutable memtables are abstracted by their byte size (a Nat); a sync
payload is the list of memtable sizes it covers; SSTs are abstracted by
file ids (Nat). -/

/-- Stages of SyncUncommittedDataStage: CheckpointEpochSealed, Syncing and
Failed carry the payload of memtables; Synced carries the produced SSTs and
the accumulated sync size. -/
inductive SyncStage : Type
  | checkpointEpochSealed (payload : List Nat)
  | syncing (payload : List Nat)
  | failed (payload : List Nat)
  | synced (ssts : List Nat) (sync_size : Nat)
deriving DecidableEq, Repr

/-- Result structure sent back on a successful sync (store::SyncResult). -/
structure SyncResult where
  sync_size : Nat
  uncommitted_ssts : List Nat
deriving DecidableEq, Repr

/-- Error kinds that flow through a sync reply sender in
hummock_event_handler.rs (all constructed with HummockError::other). -/
inductive SyncError : Type
  | overwritten
  | stale
  | taskFailed
  | cleared
deriving DecidableEq, Repr

/-- Observable actions emitted by a handler step: a message on a one-shot
sync reply channel (identified by the sender id), spawning a sync upload
task, awaiting drained flush handles, watermark resets, fan-out
notifications and the Clear completion signal. -/
inductive Action : Type
  | sendSyncResult (sender : Nat) (result : Except SyncError SyncResult)
  | spawnSyncUploadTask (epoch : Nat) (payload : List Nat) (sync_size : Nat) (handle : Nat)
  | awaitFlushHandles (handles : List Nat)
  | removeWatermarkSstId
  | notifyCleared
  | notifyReadVersions (max_committed_epoch : Nat)
  | setConflictWatermark (max_committed_epoch : Nat)
deriving Repr

deriving instance DecidableEq for Except

deriving instance DecidableEq for Action

/-- Modelled from the spec: the event-loop-owned LocalVersion (its code is
outside the given sources). It aggregates the largest sync epoch, the
committed epoch of the pinned version it holds, the per-sync-epoch records
and the unsynced memtables grouped by epoch. -/
structure LocalVersion where
  max_sync_epoch : Nat
  max_committed_epoch : Nat
  sync_uncommitted_data : List (Nat × SyncStage)
  unsynced : List (Nat × List Nat)
deriving DecidableEq, Repr

/-- Modelled from the spec: get_prev_max_sync_epoch returns the largest
sync epoch strictly less than e, or the max committed epoch if none, and
returns none exactly when e is at most the max committed epoch (a stale
sync). -/
def LocalVersion.get_prev_max_sync_epoch (lv : LocalVersion) (e : Nat) : Option Nat :=
  if e ≤ lv.max_committed_epoch then none
  else
    match ((akeys lv.sync_uncommitted_data).filter (fun k => decide (k < e))).max? with
    | some p => some p
    | none => some lv.max_committed_epoch

/-- Modelled from the spec: seal_epoch with is_checkpoint set creates a
Sealed record for e, moves every unsynced memtable with epoch at most e
into its payload, and sets max_sync_epoch to e. -/
def LocalVersion.seal_checkpoint (lv : LocalVersion) (e : Nat) : LocalVersion :=
  let moved := (lv.unsynced.filter (fun p => decide (p.1 ≤ e))).flatMap Prod.snd
  { lv with
    unsynced := lv.unsynced.filter (fun p => !decide (p.1 ≤ e))
    sync_uncommitted_data :=
      ainsert lv.sync_uncommitted_data e (SyncStage.checkpointEpochSealed moved)
    max_sync_epoch := e }

/-- Modelled from the spec: the record-level start_syncing transitions a
Sealed record to Syncing and returns its payload together with the
accumulated byte size. -/
def SyncStage.start_syncing (payload : List Nat) : (List Nat × Nat) × SyncStage :=
  ((payload, payload.sum), SyncStage.syncing payload)

/-- Modelled from the spec: LocalVersion.start_syncing e transitions the
record at e from Sealed to Syncing, creating it by sealing at e if absent;
its payload absorbs the memtables of every Sealed record with sync epoch at
most e. -/
def LocalVersion.start_syncing (lv₀ : LocalVersion) (e : Nat) :
    (List Nat × Nat) × LocalVersion :=
  let lv := if (alookup lv₀.sync_uncommitted_data e).isSome then lv₀
            else lv₀.seal_checkpoint e
  let payload := lv.sync_uncommitted_data.flatMap (fun p =>
    match p.2 with
    | SyncStage.checkpointEpochSealed q => if p.1 ≤ e then q else []
    | _ => [])
  let remaining := lv.sync_uncommitted_data.filter (fun p =>
    match p.2 with
    | SyncStage.checkpointEpochSealed _ => !decide (p.1 ≤ e)
    | _ => true)
  ((payload, payload.sum),
   { lv with sync_uncommitted_data := ainsert remaining e (SyncStage.syncing payload) })

/-- Modelled from the spec: clear_shared_buffer drops all unsynced
memtables and all sync records. -/
def LocalVersion.clear_shared_buffer (lv : LocalVersion) : LocalVersion :=
  { lv with unsynced := [], sync_uncommitted_data := [] }

/-! ## Upload handle manager

Modelled from the spec: a map from epoch to the background task handles
attached to it; handles are abstracted by ids. -/

/-- Modelled from the spec: add_epoch_handle attaches handles to an epoch. -/
def add_epoch_handle (m : List (Nat × List Nat)) (e : Nat) (hs : List Nat) :
    List (Nat × List Nat) :=
  match alookup m e with
  | some old => ainsert m e (old ++ hs)
  | none => ainsert m e hs

/-- Modelled from the spec: drain_epoch_handle over the inclusive range
lo..=hi removes and returns all handles for epochs in the range. -/
def drain_epoch_handle (m : List (Nat × List Nat)) (lo hi : Nat) :
    List Nat × List (Nat × List Nat) :=
  ((m.filter (fun p => decide (lo ≤ p.1 ∧ p.1 ≤ hi))).flatMap Prod.snd,
   m.filter (fun p => !decide (lo ≤ p.1 ∧ p.1 ≤ hi)))

/-- Modelled from the spec: drain_epoch_handle over the full range removes
and returns every handle. -/
def drain_epoch_handle_all (m : List (Nat × List Nat)) :
    List Nat × List (Nat × List Nat) :=
  (m.flatMap Prod.snd, [])

/-! ## Handler state and event handlers -/

/-- Event-handler state embedded from HummockEventHandler: the pending sync
reply senders by epoch (senders abstracted by ids), the upload handle
manager, the local version, the pinned version (its id and max committed
epoch), the value held by the version-update watch channel, and a counter
producing fresh handle ids for spawned tasks. -/
structure HandlerState where
  pending_sync_requests : List (Nat × Nat)
  upload_handle_manager : List (Nat × List Nat)
  local_version : LocalVersion
  pinned_version_id : Nat
  pinned_max_committed_epoch : Nat
  watch_value : Nat
  next_handle_id : Nat
deriving DecidableEq, Repr

/-- Embedding of HummockEventHandler::send_sync_result on the pending map:
remove the sender registered for the epoch and send the result to it;
panic (none) if no sender is registered. -/
def send_sync_result (pending : List (Nat × Nat)) (epoch : Nat)
    (result : Except SyncError SyncResult) : Option (List (Nat × Nat) × Action) :=
  match alookup pending epoch with
  | some tx => some (aremove pending epoch, Action.sendSyncResult tx result)
  | none => none

/-- Embedding of HummockEventHandler::handle_epoch_finished. If the epoch
is beyond the max sync epoch the finished task was an opportunistic flush
and nothing happens. Otherwise the sync record is looked up (panicking if
absent) and dispatched on its stage: Sealed starts syncing and spawns the
sync upload task whose fresh handle is attached to the epoch; Syncing is
unreachable (panic); Failed sends a task-failed error; Synced sends the
recorded SSTs and sync size. -/
def handle_epoch_finished (s : HandlerState) (epoch : Nat) :
    Option (HandlerState × List Action) :=
  if epoch > s.local_version.max_sync_epoch then some (s, [])
  else
    match alookup s.local_version.sync_uncommitted_data epoch with
    | none => none
    | some stage =>
      match stage with
      | SyncStage.checkpointEpochSealed payload =>
        let r := SyncStage.start_syncing payload
        let lv := { s.local_version with
          sync_uncommitted_data :=
            ainsert s.local_version.sync_uncommitted_data epoch r.2 }
        let h := s.next_handle_id
        some ({ s with local_version := lv,
                       next_handle_id := h + 1,
                       upload_handle_manager :=
                         add_epoch_handle s.upload_handle_manager epoch [h] },
              [Action.spawnSyncUploadTask epoch r.1.1 r.1.2 h])
      | SyncStage.syncing _ => none
      | SyncStage.failed _ =>
        match send_sync_result s.pending_sync_requests epoch
            (Except.error SyncError.taskFailed) with
        | none => none
        | some (p, a) => some ({ s with pending_sync_requests := p }, [a])
      | SyncStage.synced ssts sync_size =>
        match send_sync_result s.pending_sync_requests epoch
            (Except.ok ⟨sync_size, ssts⟩) with
        | none => none
        | some (p, a) => some ({ s with pending_sync_requests := p }, [a])

/-- Embedding of HummockEventHandler::handle_sync_epoch. The new sender is
registered under the epoch, an older sender receiving an overwritten
error. If the previous max sync epoch is none the sync is stale and the
freshly registered sender receives an error. Otherwise the flush handles
in the range (prev, e] are drained: if none were drained start_syncing
runs and the sync upload task is spawned with its handle attached to e,
else the drained handles are re-attached to e. -/
def handle_sync_epoch (s : HandlerState) (new_sync_epoch : Nat)
    (sync_result_sender : Nat) : Option (HandlerState × List Action) :=
  let oldMsgs :=
    match alookup s.pending_sync_requests new_sync_epoch with
    | some old => [Action.sendSyncResult old (Except.error SyncError.overwritten)]
    | none => []
  let p₁ := ainsert s.pending_sync_requests new_sync_epoch sync_result_sender
  let s₁ := { s with pending_sync_requests := p₁ }
  match s₁.local_version.get_prev_max_sync_epoch new_sync_epoch with
  | none =>
    match send_sync_result s₁.pending_sync_requests new_sync_epoch
        (Except.error SyncError.stale) with
    | none => none
    | some (p, a) => some ({ s₁ with pending_sync_requests := p }, oldMsgs ++ [a])
  | some prev =>
    let d := drain_epoch_handle s₁.upload_handle_manager (prev + 1) new_sync_epoch
    if d.1 = [] then
      let r := s₁.local_version.start_syncing new_sync_epoch
      let h := s₁.next_handle_id
      some ({ s₁ with local_version := r.2,
                      next_handle_id := h + 1,
                      upload_handle_manager :=
                        add_epoch_handle d.2 new_sync_epoch [h] },
            oldMsgs ++ [Action.spawnSyncUploadTask new_sync_epoch r.1.1 r.1.2 h])
    else
      some ({ s₁ with upload_handle_manager :=
                add_epoch_handle d.2 new_sync_epoch d.1 },
            oldMsgs)

/-- Send the cleared error to each listed pending epoch in turn through
send_sync_result, accumulating the reply actions; none propagates a panic
of send_sync_result. -/
def send_all_cleared : List Nat → List (Nat × Nat) →
    Option (List (Nat × Nat) × List Action)
  | [], pending => some (pending, [])
  | e :: es, pending =>
    match send_sync_result pending e (Except.error SyncError.cleared) with
    | none => none
    | some (p, a) =>
      match send_all_cleared es p with
      | none => none
      | some (p₂, as₂) => some (p₂, a :: as₂)

/-- Embedding of HummockEventHandler::handle_clear: drain and await all
upload handles (join errors only logged), reply a cleared error to every
pending sync waiter, clear the shared buffer, reset the uncommitted
file-id watermark, and finally signal the notifier. -/
def handle_clear (s : HandlerState) : Option (HandlerState × List Action) :=
  let d := drain_epoch_handle_all s.upload_handle_manager
  let pending_epochs := akeys s.pending_sync_requests
  match send_all_cleared pending_epochs s.pending_sync_requests with
  | none => none
  | some (p, msgs) =>
    some ({ s with upload_handle_manager := d.2,
                   pending_sync_requests := p,
                   local_version := s.local_version.clear_shared_buffer },
          Action.awaitFlushHandles d.1 ::
            msgs ++ [Action.removeWatermarkSstId, Action.notifyCleared])

/-! ## Version updates -/

/-- Version delta, modelled from the spec interface: prev_id and new_id
with the changes abstracted to the resulting max committed epoch. -/
structure HummockVersionDelta where
  prev_id : Nat
  new_id : Nat
  max_committed_epoch : Nat
deriving DecidableEq, Repr

/-- Payload of a VersionUpdate event: either incremental deltas or a full
pinned version (its id and max committed epoch). -/
inductive VersionPayload : Type
  | versionDeltas (deltas : List HummockVersionDelta)
  | pinnedVersion (id : Nat) (max_committed_epoch : Nat)
deriving DecidableEq, Repr

/-- Apply version deltas in order: each delta asserts that its prev_id
equals the current version id (panic, none, otherwise) and yields the
delta's new id and max committed epoch. -/
def apply_version_deltas : Nat → Nat → List HummockVersionDelta → Option (Nat × Nat)
  | id, mce, [] => some (id, mce)
  | id, _, d :: ds =>
    if d.prev_id = id then apply_version_deltas d.new_id d.max_committed_epoch ds
    else none

/-- Embedding of HummockEventHandler::handle_version_update: compute the
newly pinned version from the payload (asserting delta id chaining),
replace the pinned version, fan the committed snapshot out to all read
versions, then update the watch channel value through send_if_modified,
which asserts that the stored value equals the previous pinned max
committed epoch and overwrites it only when the new max committed epoch
strictly exceeds it; finally the conflict watermark and the sst-id
watermark follow the new pinned version. -/
def handle_version_update (s : HandlerState) (payload : VersionPayload) :
    Option (HandlerState × List Action) :=
  let prev_max_committed_epoch := s.pinned_max_committed_epoch
  let newly :=
    match payload with
    | VersionPayload.versionDeltas ds =>
      apply_version_deltas s.pinned_version_id s.pinned_max_committed_epoch ds
    | VersionPayload.pinnedVersion id mce => some (id, mce)
  match newly with
  | none => none
  | some (new_id, new_mce) =>
    if s.watch_value = prev_max_committed_epoch then
      let watch := if new_mce > s.watch_value then new_mce else s.watch_value
      some ({ s with pinned_version_id := new_id,
                     pinned_max_committed_epoch := new_mce,
                     watch_value := watch },
            [Action.notifyReadVersions new_mce,
             Action.setConflictWatermark new_mce,
             Action.removeWatermarkSstId])
    else none

/-! ## Instance teardown -/

/-- Embedding of the DestroyHummockInstance arm of
start_hummock_event_handler_worker: look up the inner map for the table id,
panicking (none) if the table has no entry, and remove the instance id from
it. Read versions in the inner map are abstracted by ids. -/
def handle_destroy_instance (m : List (Nat × List (Nat × Nat)))
    (table_id instance_id : Nat) : Option (List (Nat × List (Nat × Nat))) :=
  match alookup m table_id with
  | none => none
  | some inner => some (ainsert m table_id (aremove inner instance_id))

/-! ## Concrete states used by witnesses -/

/-- Local version used by witness states: a Sealed record at epoch 5, an
unsynced memtable at epoch 6, committed epoch 2. -/
def wLocalVersion : LocalVersion :=
  { max_sync_epoch := 5, max_committed_epoch := 2,
    sync_uncommitted_data := [(5, SyncStage.checkpointEpochSealed [10, 20])],
    unsynced := [(6, [7])] }

/-- Handler state used by witnesses: one pending sync sender for epoch 5
and two in-flight flush handles for epochs 3 and 4. -/
def wState : HandlerState :=
  { pending_sync_requests := [(5, 9)],
    upload_handle_manager := [(3, [100]), (4, [101])],
    local_version := wLocalVersion,
    pinned_version_id := 1,
    pinned_max_committed_epoch := 2,
    watch_value := 2,
    next_handle_id := 200 }

/-- Variant of the witness state with no in-flight flush handles. -/
def wStateNoHandles : HandlerState :=
  { wState with upload_handle_manager := [] }

/-- Witness state after applying a version update to pinned version 2 with
committed epoch 4. -/
def wStateAfterUpdate : HandlerState :=
  { wState with
      pinned_version_id := 2
      pinned_max_committed_epoch := 4
      watch_value := 4 }

/-! ## General lemmas on the map operations -/

theorem aremove_ainsert {α : Type} (m : List (Nat × α)) (k : Nat) (v : α) :
    aremove (ainsert m k v) k = aremove m k := by
  simp [ainsert, aremove, List.filter_filter, Bool.and_self]

theorem aremove_of_not_mem {α : Type} (m : List (Nat × α)) (k : Nat)
    (h : k ∉ akeys m) : aremove m k = m := by
  induction m with
  | nil => rfl
  | cons p rest ih =>
    have hk : p.1 ≠ k := by
      intro hx
      exact h (by simp [akeys, hx])
    have hr : k ∉ akeys rest := fun hx => h (by simp [akeys] at hx ⊢; exact Or.inr hx)
    simp [aremove, List.filter, hk] at ih ⊢
    exact ih hr

theorem get_prev_none_iff (lv : LocalVersion) (e : Nat) :
    lv.get_prev_max_sync_epoch e = none ↔ e ≤ lv.max_committed_epoch := by
  unfold LocalVersion.get_prev_max_sync_epoch
  by_cases h : e ≤ lv.max_committed_epoch
  · simp [h]
  · simp only [h, if_false]
    constructor
    · intro hc
      cases hm : ((akeys lv.sync_uncommitted_data).filter (fun k => decide (k < e))).max? <;>
        simp [hm] at hc
    · intro hc
      exact hc.elim

theorem send_all_cleared_spec (pending : List (Nat × Nat))
    (h : (akeys pending).Nodup) :
    send_all_cleared (akeys pending) pending =
      some ([], pending.map
        (fun p => Action.sendSyncResult p.2 (Except.error SyncError.cleared))) := by
  induction pending with
  | nil => rfl
  | cons p rest ih =>
    have h' : (p.1 :: akeys rest).Nodup := h
    have hmem : p.1 ∉ akeys rest := (List.nodup_cons.mp h').1
    have hnd : (akeys rest).Nodup := (List.nodup_cons.mp h').2
    have hlook : alookup (p :: rest) p.1 = some p.2 := by
      simp [alookup]
    have hrem : aremove (p :: rest) p.1 = rest := by
      have : aremove (p :: rest) p.1 = aremove rest p.1 := by
        simp [aremove, List.filter]
      rw [this, aremove_of_not_mem rest p.1 hmem]
    show send_all_cleared (p.1 :: akeys rest) (p :: rest) = _
    simp only [send_all_cleared, send_sync_result, hlook, hrem, ih hnd]
    rfl

/-! ## Claim theorems -/

/-- C7: need_more_flush returns true exactly when the current buffer usage
minus the in-flight upload byte count exceeds the flush threshold, and the
threshold configured by from_storage_config is 4 times the byte budget C
divided by 5, with C the configured capacity in MB shifted to bytes. -/
theorem buffer_tracker_need_more_flush_c7 (config : StorageConfig)
    (usage upload : Nat) :
    (BufferTracker.from_storage_config config).flush_threshold
        = config.shared_buffer_capacity_mb * 2 ^ 20 * 4 / 5
    ∧ (BufferTracker.need_more_flush
          { flush_threshold := (BufferTracker.from_storage_config config).flush_threshold,
            buffer_size := usage, upload_task_size := upload } = true
        ↔ (usage : ℤ) - (upload : ℤ)
            > ((BufferTracker.from_storage_config config).flush_threshold : ℤ)) := by
  refine ⟨rfl, ?_⟩
  simp only [BufferTracker.need_more_flush, decide_eq_true_eq, gt_iff_lt]
  omega

/-- C8 counterexample: with a non-default flush ratio of one half and a
5 MB capacity, the flush threshold computed by from_storage_config is not
the configured ratio times the capacity; the code hardcodes 4/5. -/
theorem flush_ratio_ignored_c8_counterexample :
    ((BufferTracker.from_storage_config
        { shared_buffer_capacity_mb := 5,
          shared_buffer_flush_ratio := (1 : ℚ) / 2 }).flush_threshold : ℚ)
      ≠ specFlushThreshold
          { shared_buffer_capacity_mb := 5,
            shared_buffer_flush_ratio := (1 : ℚ) / 2 } := by
  norm_num [BufferTracker.from_storage_config, specFlushThreshold]

/-- C8 amended: the flush threshold computed by from_storage_config equals
capacity times 4 divided by 5, independently of the configured
shared_buffer_flush_ratio. -/
theorem flush_threshold_c8_amended (config : StorageConfig) :
    (BufferTracker.from_storage_config config).flush_threshold
      = config.shared_buffer_capacity_mb * 2 ^ 20 * 4 / 5 := rfl

/-- C9 counterexample: with read_version_mapping holding table 7 with an
empty inner map, destroying instance 3 of table 7 finds no entry for the
instance yet does not panic and removes nothing. -/
theorem destroy_instance_c9_counterexample :
    alookup [(7, ([] : List (Nat × Nat)))] 7 = some []
    ∧ alookup ([] : List (Nat × Nat)) 3 = none
    ∧ handle_destroy_instance [(7, [])] 7 3 = some [(7, [])] := by
  decide

/-- C9 amended: the DestroyHummockInstance arm removes the instance entry
from the inner map of its table and panics exactly when the table id has
no entry in read_version_mapping; an absent instance id under a present
table entry is a silent no-op. -/
theorem destroy_instance_c9_amended (m : List (Nat × List (Nat × Nat)))
    (t i : Nat) :
    (alookup m t = none → handle_destroy_instance m t i = none)
    ∧ ∀ inner, alookup m t = some inner →
        handle_destroy_instance m t i = some (ainsert m t (aremove inner i)) := by
  constructor
  · intro h
    simp [handle_destroy_instance, h]
  · intro inner h
    simp [handle_destroy_instance, h]

/-- C9 witness: the amended statement applied to a mapping without the
table (panic) and to a mapping holding the instance (removal). -/
theorem destroy_instance_c9_witness :
    handle_destroy_instance ([] : List (Nat × List (Nat × Nat))) 7 3 = none
    ∧ handle_destroy_instance [(7, [(3, 0)])] 7 3
        = some (ainsert [(7, [(3, 0)])] 7 (aremove [(3, 0)] 3)) :=
  ⟨(destroy_instance_c9_amended [] 7 3).1 rfl,
   (destroy_instance_c9_amended [(7, [(3, 0)])] 7 3).2 [(3, 0)] rfl⟩

/-- C10: send_sync_result removes the sender registered for the epoch and
delivers the result to it; when no sender is registered for the epoch it
panics, so the panic branch is unreachable whenever a SyncEpoch request
for the epoch is pending. -/
theorem send_sync_result_c10 (pending : List (Nat × Nat)) (epoch : Nat)
    (result : Except SyncError SyncResult) :
    (∀ tx, alookup pending epoch = some tx →
        send_sync_result pending epoch result
          = some (aremove pending epoch, Action.sendSyncResult tx result))
    ∧ (alookup pending epoch = none →
        send_sync_result pending epoch result = none) := by
  constructor
  · intro tx h
    simp [send_sync_result, h]
  · intro h
    simp [send_sync_result, h]

/-- C10 witness: delivery to a registered sender for epoch 5 and the panic
on an empty pending map. -/
theorem send_sync_result_c10_witness :
    send_sync_result [(5, 9)] 5 (Except.error SyncError.taskFailed)
        = some (aremove [(5, 9)] 5,
            Action.sendSyncResult 9 (Except.error SyncError.taskFailed))
    ∧ send_sync_result [] 5 (Except.error SyncError.taskFailed) = none :=
  ⟨(send_sync_result_c10 [(5, 9)] 5 (Except.error SyncError.taskFailed)).1 9 rfl,
   (send_sync_result_c10 [] 5 (Except.error SyncError.taskFailed)).2 rfl⟩

/-- C5: on a stale SyncEpoch, which arises exactly when the epoch is at
most the committed epoch, handle_sync_epoch replies a stale error to the
just-registered sender and returns: the upload handle manager, the local
version, the pinned version, the watch value and the handle counter are
untouched, no handles are drained, start_syncing is not called and no task
is spawned; the pending map merely loses any sender for that epoch. -/
theorem handle_sync_epoch_stale_c5 (s : HandlerState) (e tx : Nat)
    (hstale : s.local_version.get_prev_max_sync_epoch e = none) :
    e ≤ s.local_version.max_committed_epoch
    ∧ handle_sync_epoch s e tx = some
        ({ s with pending_sync_requests := aremove s.pending_sync_requests e },
         (match alookup s.pending_sync_requests e with
          | some old => [Action.sendSyncResult old (Except.error SyncError.overwritten)]
          | none => [])
           ++ [Action.sendSyncResult tx (Except.error SyncError.stale)]) := by
  refine ⟨(get_prev_none_iff _ _).mp hstale, ?_⟩
  simp only [handle_sync_epoch, hstale]
  simp only [send_sync_result, alookup_ainsert_self, aremove_ainsert]

/-- C5 witness: epoch 1 is at most the committed epoch 2 of the witness
state, so the sync is stale and the fresh sender 42 receives the error. -/
theorem handle_sync_epoch_stale_c5_witness :
    (1 : Nat) ≤ wState.local_version.max_committed_epoch
    ∧ handle_sync_epoch wState 1 42 = some
        ({ wState with pending_sync_requests := aremove wState.pending_sync_requests 1 },
         [Action.sendSyncResult 42 (Except.error SyncError.stale)]) := by
  have h := handle_sync_epoch_stale_c5 wState 1 42 (by decide)
  refine ⟨h.1, ?_⟩
  rw [h.2]
  rfl

/-- C4: whenever handle_version_update completes without panicking, the
watch channel value never decreases: the stored value was asserted equal
to the previous pinned max committed epoch, the new value is the maximum
of the old value and the new pinned max committed epoch, and the value
changes exactly when the new max committed epoch strictly exceeds it. -/
theorem handle_version_update_c4 (s : HandlerState) (payload : VersionPayload)
    (s' : HandlerState) (acts : List Action)
    (h : handle_version_update s payload = some (s', acts)) :
    s.watch_value = s.pinned_max_committed_epoch
    ∧ s'.watch_value = max s.watch_value s'.pinned_max_committed_epoch
    ∧ s.watch_value ≤ s'.watch_value
    ∧ (s'.watch_value ≠ s.watch_value ↔ s.watch_value < s'.pinned_max_committed_epoch) := by
  unfold handle_version_update at h
  cases hn : (match payload with
    | VersionPayload.versionDeltas ds =>
        apply_version_deltas s.pinned_version_id s.pinned_max_committed_epoch ds
    | VersionPayload.pinnedVersion id mce => some (id, mce)) with
  | none =>
    rw [hn] at h
    exact absurd h (by simp)
  | some nv =>
    obtain ⟨new_id, new_mce⟩ := nv
    rw [hn] at h
    simp only [] at h
    by_cases hw : s.watch_value = s.pinned_max_committed_epoch
    · rw [if_pos hw] at h
      rw [Option.some.injEq, Prod.mk.injEq] at h
      obtain ⟨h1, h2⟩ := h
      have hwv : s'.watch_value
          = if s.watch_value < new_mce then new_mce else s.watch_value := by
        rw [← h1]
      have hmce : s'.pinned_max_committed_epoch = new_mce := by
        rw [← h1]
      by_cases hgt : s.watch_value < new_mce
      · simp only [hwv, hmce, if_pos hgt]
        refine ⟨hw, ?_, ?_, ?_⟩ <;> omega
      · simp only [hwv, hmce, if_neg hgt]
        refine ⟨hw, ?_, ?_, ?_⟩ <;> omega
    · rw [if_neg hw] at h
      exact absurd h (by simp)

/-- C4 witness: a full pinned version with id 2 and committed epoch 4
raises the watch value of the witness state from 2 to 4. -/
theorem handle_version_update_c4_witness :
    wState.watch_value = wState.pinned_max_committed_epoch
    ∧ wStateAfterUpdate.watch_value
        = max wState.watch_value wStateAfterUpdate.pinned_max_committed_epoch
    ∧ wState.watch_value ≤ wStateAfterUpdate.watch_value :=
  have h := handle_version_update_c4 wState (VersionPayload.pinnedVersion 2 4)
    wStateAfterUpdate
    [Action.notifyReadVersions 4, Action.setConflictWatermark 4,
     Action.removeWatermarkSstId] (by decide)
  ⟨h.1, h.2.1, h.2.2.1⟩

/-- C6: handle_clear never panics given the pending senders are keyed
uniquely; it awaits all drained upload handles first, then replies a
cleared error to every pending waiter (emptying the pending map), clears
the shared buffer, resets the sst-id watermark, and signals the notifier
last. -/
theorem handle_clear_c6 (s : HandlerState)
    (h : (akeys s.pending_sync_requests).Nodup) :
    handle_clear s = some
      ({ s with upload_handle_manager := [],
                pending_sync_requests := [],
                local_version := s.local_version.clear_shared_buffer },
       Action.awaitFlushHandles (s.upload_handle_manager.flatMap Prod.snd)
         :: (s.pending_sync_requests.map
              (fun p => Action.sendSyncResult p.2 (Except.error SyncError.cleared))
             ++ [Action.removeWatermarkSstId, Action.notifyCleared]))
    ∧ s.local_version.clear_shared_buffer.unsynced = []
    ∧ s.local_version.clear_shared_buffer.sync_uncommitted_data = [] := by
  refine ⟨?_, rfl, rfl⟩
  simp only [handle_clear, drain_epoch_handle_all,
    send_all_cleared_spec s.pending_sync_requests h]
  rfl

/-- C6 witness: clearing the witness state drains handles 100 and 101,
replies cleared to the single pending sender 9, empties every buffer and
signals last. -/
theorem handle_clear_c6_witness :
    handle_clear wState = some
      ({ wState with upload_handle_manager := [],
                     pending_sync_requests := [],
                     local_version := wState.local_version.clear_shared_buffer },
       [Action.awaitFlushHandles [100, 101],
        Action.sendSyncResult 9 (Except.error SyncError.cleared),
        Action.removeWatermarkSstId, Action.notifyCleared]) := by
  have h := (handle_clear_c6 wState (by decide)).1
  rw [h]
  rfl

/-- C1: dispatch of handle_epoch_finished on an emitted epoch. Beyond the
max sync epoch the finished task was an opportunistic flush and the state
is unchanged. At or below it, the sync record is inspected: a Sealed
record starts syncing and spawns the sync upload task whose fresh handle
is attached to the epoch; a Syncing record is never observed (the code
panics through unreachable there); a Failed record sends the task-failed
error to the pending sender; a Synced record sends Ok with exactly the
recorded SSTs and sync size. -/
theorem handle_epoch_finished_c1 (s : HandlerState) (epoch : Nat) :
    (s.local_version.max_sync_epoch < epoch →
        handle_epoch_finished s epoch = some (s, []))
    ∧ (∀ payload, epoch ≤ s.local_version.max_sync_epoch →
        alookup s.local_version.sync_uncommitted_data epoch
            = some (SyncStage.checkpointEpochSealed payload) →
        handle_epoch_finished s epoch = some
          ({ s with
              local_version :=
                { s.local_version with
                    sync_uncommitted_data :=
                      ainsert s.local_version.sync_uncommitted_data epoch
                        (SyncStage.syncing payload) },
              next_handle_id := s.next_handle_id + 1,
              upload_handle_manager :=
                add_epoch_handle s.upload_handle_manager epoch [s.next_handle_id] },
           [Action.spawnSyncUploadTask epoch payload payload.sum s.next_handle_id]))
    ∧ (∀ payload, epoch ≤ s.local_version.max_sync_epoch →
        alookup s.local_version.sync_uncommitted_data epoch
            = some (SyncStage.syncing payload) →
        handle_epoch_finished s epoch = none)
    ∧ (∀ payload tx, epoch ≤ s.local_version.max_sync_epoch →
        alookup s.local_version.sync_uncommitted_data epoch
            = some (SyncStage.failed payload) →
        alookup s.pending_sync_requests epoch = some tx →
        handle_epoch_finished s epoch = some
          ({ s with pending_sync_requests := aremove s.pending_sync_requests epoch },
           [Action.sendSyncResult tx (Except.error SyncError.taskFailed)]))
    ∧ (∀ ssts sync_size tx, epoch ≤ s.local_version.max_sync_epoch →
        alookup s.local_version.sync_uncommitted_data epoch
            = some (SyncStage.synced ssts sync_size) →
        alookup s.pending_sync_requests epoch = some tx →
        handle_epoch_finished s epoch = some
          ({ s with pending_sync_requests := aremove s.pending_sync_requests epoch },
           [Action.sendSyncResult tx
              (Except.ok { sync_size := sync_size, uncommitted_ssts := ssts })])) := by
  refine ⟨?_, ?_, ?_, ?_, ?_⟩
  · intro h
    simp only [handle_epoch_finished, gt_iff_lt, if_pos h]
  · intro payload hle hl
    have hno : ¬ s.local_version.max_sync_epoch < epoch := by omega
    simp only [handle_epoch_finished, gt_iff_lt, if_neg hno, hl,
      SyncStage.start_syncing]
  · intro payload hle hl
    have hno : ¬ s.local_version.max_sync_epoch < epoch := by omega
    simp only [handle_epoch_finished, gt_iff_lt, if_neg hno, hl]
  · intro payload tx hle hl hp
    have hno : ¬ s.local_version.max_sync_epoch < epoch := by omega
    simp only [handle_epoch_finished, gt_iff_lt, if_neg hno, hl,
      send_sync_result, hp]
  · intro ssts sync_size tx hle hl hp
    have hno : ¬ s.local_version.max_sync_epoch < epoch := by omega
    simp only [handle_epoch_finished, gt_iff_lt, if_neg hno, hl,
      send_sync_result, hp]

/-- C1 witness: on the witness state, epoch 7 exceeds the max sync epoch 5
and nothing changes, while epoch 5 finds its Sealed record, starts syncing
and spawns the sync upload task with fresh handle 200 attached to 5. -/
theorem handle_epoch_finished_c1_witness :
    handle_epoch_finished wState 7 = some (wState, [])
    ∧ handle_epoch_finished wState 5 = some
        ({ wState with
            local_version :=
              { wState.local_version with
                  sync_uncommitted_data :=
                    ainsert wState.local_version.sync_uncommitted_data 5
                      (SyncStage.syncing [10, 20]) },
            next_handle_id := wState.next_handle_id + 1,
            upload_handle_manager :=
              add_epoch_handle wState.upload_handle_manager 5 [wState.next_handle_id] },
         [Action.spawnSyncUploadTask 5 [10, 20] (List.sum [10, 20])
            wState.next_handle_id]) :=
  ⟨(handle_epoch_finished_c1 wState 7).1 (by decide),
   (handle_epoch_finished_c1 wState 5).2.1 [10, 20] (by decide) (by decide)⟩

/-- C2: on a SyncEpoch with a non-stale previous max sync epoch prev,
handle_sync_epoch drains exactly the upload handles for epochs in the
range (prev, e]. If none were drained, start_syncing runs and the sync
upload task is spawned with a fresh handle attached to e; if at least one
was drained, the drained handles are re-attached to e, the local version
is untouched and no task is spawned. -/
theorem handle_sync_epoch_drain_c2 (s : HandlerState) (e tx prev : Nat)
    (hprev : s.local_version.get_prev_max_sync_epoch e = some prev) :
    ((drain_epoch_handle s.upload_handle_manager (prev + 1) e).1 = [] →
        handle_sync_epoch s e tx = some
          ({ s with
              pending_sync_requests := ainsert s.pending_sync_requests e tx,
              local_version := (s.local_version.start_syncing e).2,
              next_handle_id := s.next_handle_id + 1,
              upload_handle_manager :=
                add_epoch_handle
                  (drain_epoch_handle s.upload_handle_manager (prev + 1) e).2 e
                  [s.next_handle_id] },
           (match alookup s.pending_sync_requests e with
            | some old => [Action.sendSyncResult old (Except.error SyncError.overwritten)]
            | none => [])
             ++ [Action.spawnSyncUploadTask e (s.local_version.start_syncing e).1.1
                  (s.local_version.start_syncing e).1.2 s.next_handle_id]))
    ∧ ((drain_epoch_handle s.upload_handle_manager (prev + 1) e).1 ≠ [] →
        handle_sync_epoch s e tx = some
          ({ s with
              pending_sync_requests := ainsert s.pending_sync_requests e tx,
              upload_handle_manager :=
                add_epoch_handle
                  (drain_epoch_handle s.upload_handle_manager (prev + 1) e).2 e
                  (drain_epoch_handle s.upload_handle_manager (prev + 1) e).1 },
           (match alookup s.pending_sync_requests e with
            | some old => [Action.sendSyncResult old (Except.error SyncError.overwritten)]
            | none => []))) := by
  constructor
  · intro hd
    simp only [handle_sync_epoch, hprev, hd, if_pos]
  · intro hd
    simp only [handle_sync_epoch, hprev, if_neg hd]

/-- C2 witness: on the witness state, syncing epoch 5 with prev 2 drains
handles 100 and 101 of epochs 3 and 4 and re-attaches them to 5 without
spawning; on the handle-free variant nothing is drained and the sync task
is spawned with fresh handle 200. -/
theorem handle_sync_epoch_drain_c2_witness :
    handle_sync_epoch wState 5 8 = some
      ({ wState with
          pending_sync_requests := ainsert wState.pending_sync_requests 5 8,
          upload_handle_manager :=
            add_epoch_handle
              (drain_epoch_handle wState.upload_handle_manager 3 5).2 5
              (drain_epoch_handle wState.upload_handle_manager 3 5).1 },
       [Action.sendSyncResult 9 (Except.error SyncError.overwritten)])
    ∧ handle_sync_epoch wStateNoHandles 5 8 = some
      ({ wStateNoHandles with
          pending_sync_requests := ainsert wStateNoHandles.pending_sync_requests 5 8,
          local_version := (wStateNoHandles.local_version.start_syncing 5).2,
          next_handle_id := wStateNoHandles.next_handle_id + 1,
          upload_handle_manager :=
            add_epoch_handle
              (drain_epoch_handle wStateNoHandles.upload_handle_manager 3 5).2 5
              [wStateNoHandles.next_handle_id] },
       [Action.sendSyncResult 9 (Except.error SyncError.overwritten),
        Action.spawnSyncUploadTask 5 (wStateNoHandles.local_version.start_syncing 5).1.1
          (wStateNoHandles.local_version.start_syncing 5).1.2
          wStateNoHandles.next_handle_id]) := by
  have h₁ := (handle_sync_epoch_drain_c2 wState 5 8 2 (by decide)).2 (by decide)
  have h₂ := (handle_sync_epoch_drain_c2 wStateNoHandles 5 8 2 (by decide)).1 (by decide)
  refine ⟨by rw [h₁]; rfl, by rw [h₂]; rfl⟩

/-- C3: handle_sync_epoch registers the new reply sender under the epoch:
afterwards the pending map holds exactly the new sender for e (so only the
last registered sender can receive the actual sync result), an older
sender registered for e receives the overwritten error, and no overwritten
error is emitted when no older sender was registered. -/
theorem handle_sync_epoch_register_c3 (s : HandlerState) (e tx : Nat)
    (s' : HandlerState) (msgs : List Action)
    (h : handle_sync_epoch s e tx = some (s', msgs))
    (hns : s.local_version.get_prev_max_sync_epoch e ≠ none) :
    alookup s'.pending_sync_requests e = some tx
    ∧ (∀ old, alookup s.pending_sync_requests e = some old →
        Action.sendSyncResult old (Except.error SyncError.overwritten) ∈ msgs)
    ∧ (alookup s.pending_sync_requests e = none →
        ∀ t, Action.sendSyncResult t (Except.error SyncError.overwritten) ∉ msgs) := by
  cases hp : s.local_version.get_prev_max_sync_epoch e with
  | none => exact absurd hp hns
  | some prev =>
    simp only [handle_sync_epoch, hp] at h
    by_cases hd : (drain_epoch_handle s.upload_handle_manager (prev + 1) e).1 = []
    · rw [if_pos hd] at h
      rw [Option.some.injEq, Prod.mk.injEq] at h
      obtain ⟨h1, h2⟩ := h
      subst h2
      refine ⟨?_, ?_, ?_⟩
      · rw [← h1]
        exact alookup_ainsert_self _ _ _
      · intro old hold
        rw [hold]
        simp
      · intro hnone t
        rw [hnone]
        simp
    · rw [if_neg hd] at h
      rw [Option.some.injEq, Prod.mk.injEq] at h
      obtain ⟨h1, h2⟩ := h
      subst h2
      refine ⟨?_, ?_, ?_⟩
      · rw [← h1]
        exact alookup_ainsert_self _ _ _
      · intro old hold
        rw [hold]
        simp
      · intro hnone t
        rw [hnone]
        simp

/-- C3 witness: re-requesting sync of epoch 5 on the witness state with
sender 8 leaves sender 8 registered and delivers the overwritten error to
the older sender 9. -/
theorem handle_sync_epoch_register_c3_witness :
    alookup
      ({ wState with
          pending_sync_requests := ainsert wState.pending_sync_requests 5 8,
          upload_handle_manager :=
            add_epoch_handle
              (drain_epoch_handle wState.upload_handle_manager 3 5).2 5
              (drain_epoch_handle wState.upload_handle_manager 3 5).1 }
        : HandlerState).pending_sync_requests 5 = some 8
    ∧ Action.sendSyncResult 9 (Except.error SyncError.overwritten)
        ∈ [Action.sendSyncResult 9 (Except.error SyncError.overwritten)] := by
  have h := handle_sync_epoch_register_c3 wState 5 8
    { wState with
        pending_sync_requests := ainsert wState.pending_sync_requests 5 8,
        upload_handle_manager :=
          add_epoch_handle
            (drain_epoch_handle wState.upload_handle_manager 3 5).2 5
            (drain_epoch_handle wState.upload_handle_manager 3 5).1 }
    [Action.sendSyncResult 9 (Except.error SyncError.overwritten)]
    (by decide) (by decide)
  exact ⟨h.1, h.2.1 9 (by decide)⟩

end Hummock
